import Mathlib

/-!
Verification of the Gmail auto-responder web application.

The development shallowly embeds the core logic of the repository:

* the sender-header parser and unread-message listing endpoint
  (`src/web/app/api/gmail/list/route.ts`),
* the reply-sending endpoint with its validation, subject normalization
  and MIME/base64url encoding (the reply route),
* the client-side template engine (`QUICK_REPLIES`, `defaultReply`,
  `smartReply`) and the message-collection update performed after a
  successful send (`src/web/app/page.tsx`).

JavaScript-specific behaviour (truthiness of strings, the whitespace
class of `\s`, the semantics of the sender-header regular expression)
is modelled explicitly so that the Lean definitions compute exactly
what the TypeScript code computes.
-/

/-- Code points matched by the JavaScript regular-expression class `\s`,
which is also the set removed by `String.prototype.trim`: space, tab,
line feed, carriage return, vertical tab, form feed, no-break space,
ogham space mark, the en-quad..hair-space range, line separator,
paragraph separator, narrow no-break space, medium mathematical space,
ideographic space and the byte-order mark. -/
def jsSpaceCodes : List Nat :=
  [32, 9, 10, 13, 11, 12, 0xa0, 0x1680, 0x2000, 0x2001, 0x2002, 0x2003, 0x2004,
   0x2005, 0x2006, 0x2007, 0x2008, 0x2009, 0x200a, 0x2028, 0x2029, 0x202f,
   0x205f, 0x3000, 0xfeff]

/-- Whether a character belongs to the JavaScript whitespace class `\s`. -/
def isJsSpace (c : Char) : Bool :=
  jsSpaceCodes.contains c.toNat

/-- JavaScript line terminators: the characters NOT matched by `.` in a
regular expression without the `s` flag (line feed, carriage return,
line separator, paragraph separator). -/
def isLineTerm (c : Char) : Bool :=
  [10, 13, 0x2028, 0x2029].contains c.toNat

/-- JavaScript `String.prototype.trim` on a character list. -/
def jsTrim (l : List Char) : List Char :=
  ((l.dropWhile isJsSpace).reverse.dropWhile isJsSpace).reverse

/-- JavaScript `String.prototype.trim`. -/
def jsTrimStr (s : String) : String :=
  String.mk (jsTrim s.data)

/-- JavaScript truthiness of a nullable string: `null`, `undefined` and
the empty string are falsy. -/
def truthy : Option String → Bool
  | none => false
  | some s => s != ""

/-- JavaScript `String.prototype.startsWith`. -/
def jsStartsWith (s search : String) : Bool :=
  search.data.isPrefixOf s.data

/-- Attempt to match the tail part `\s*<(.+?)>$` of the sender-header
regular expression `^(.*?)(?:\s*<(.+?)>)?$` against the remaining input.
Returns the capture of group 2 on success.  `\s*` greedily eats the
maximal whitespace run (it can never usefully backtrack, because the
following literal `<` is not whitespace); the lazy `(.+?)` followed by
`>$` captures everything between the `<` and the final character of the
string, which must be `>`; the capture must be non-empty and free of
line terminators because `.` does not match those. -/
def tryAngle (rest : List Char) : Option (List Char) :=
  match rest.dropWhile isJsSpace with
  | '<' :: tail =>
    match tail.getLast? with
    | some '>' =>
      let inner := tail.dropLast
      if !inner.isEmpty && inner.all (fun c => !isLineTerm c) then
        some inner
      else
        none
    | _ => none
  | _ => none

/-- Outcome of matching `^(.*?)(?:\s*<(.+?)>)?$` against a string. -/
inductive RegexOut where
  | bracket (g1 inner : List Char)
  | plain
  | noMatch
deriving DecidableEq

/-- Backtracking loop of the sender-header regular expression.  The lazy
group 1 `(.*?)` is grown one character at a time from the left; at each
split point the engine first tries the optional angle-bracket group
(`tryAngle`) and, failing everywhere, group 1 swallows the entire string
(`plain`, group 2 undefined) — unless a line terminator blocks `(.*?)`,
in which case the whole match fails (`noMatch`). -/
def scanAux : List Char → List Char → RegexOut
  | [], pre =>
    match tryAngle [] with
    | some inner => RegexOut.bracket pre.reverse inner
    | none => RegexOut.plain
  | c :: cs, pre =>
    match tryAngle (c :: cs) with
    | some inner => RegexOut.bracket pre.reverse inner
    | none =>
      if isLineTerm c then RegexOut.noMatch else scanAux cs (c :: pre)

/-- Entry point of the regular-expression engine: group 1 starts empty,
the whole string is still to be examined. -/
def scan (pre rest : List Char) : RegexOut :=
  scanAux rest pre

/-- Result record of `parseEmailAddress`. -/
structure ParsedAddress where
  name : Option String
  address : Option String
deriving DecidableEq

/-- `parseEmailAddress` from `src/web/app/api/gmail/list/route.ts`:
matches the header against `^(.*?)(?:\s*<(.+?)>)?$`; when group 2
matched, the name is group 1 with every `"` removed and then trimmed
(`null` when that leaves nothing) and the address is group 2 trimmed;
otherwise the name is `null` and the (trimmed) whole header is the
address.  A falsy header yields `{name: null, address: null}`. -/
def parseEmailAddress (hv : Option String) : ParsedAddress :=
  match hv with
  | none => ⟨none, none⟩
  | some h =>
    if h = "" then ⟨none, none⟩
    else
      match scan [] h.data with
      | RegexOut.noMatch => ⟨none, some h⟩
      | RegexOut.plain => ⟨none, some (jsTrimStr h)⟩
      | RegexOut.bracket g1 inner =>
        let nameChars := jsTrim (g1.filter (fun c => c != '"'))
        ⟨if nameChars.isEmpty then none else some (String.mk nameChars),
         some (String.mk (jsTrim inner))⟩

/-- One header of a fetched message (`MessageHeader` in the list route). -/
structure MessageHeader where
  name : Option String
  value : Option String
deriving DecidableEq

/-- `headerValue` from the list route:
`headers?.find((header) => header.name === key)?.value ?? null`. -/
def headerValue (headers : Option (List MessageHeader)) (key : String) :
    Option String :=
  ((headers.getD []).find? (fun h => h.name == some key)).bind
    (fun h => h.value)

/-- One element of `data.messages` returned by the initial unread query
(`gmail.users.messages.list`): the route destructures `{ id, threadId }`. -/
structure ListEntry where
  id : Option String
  threadId : Option String
deriving DecidableEq

/-- The relevant part of a `gmail.users.messages.get` response
(`detail.data`). -/
structure MessageDetail where
  payloadHeaders : Option (List MessageHeader)
  snippet : Option String
  internalDate : Option String
  threadId : Option String
deriving DecidableEq

/-- The enriched message record produced by the list route and consumed
by the page (`GmailMessage` in `page.tsx`). -/
structure GmailMessage where
  id : String
  threadId : Option String
  subject : String
  «from» : Option String
  fromName : Option String
  fromAddress : Option String
  snippet : String
  internalDate : Option String
  date : Option String
  messageIdHeader : Option String
deriving DecidableEq

/-- The record built for one unread id inside the `Promise.all` callback
of the list route. -/
def enrich (entry : ListEntry) (id : String) (detail : MessageDetail) :
    GmailMessage :=
  let headers := detail.payloadHeaders.getD []
  let subject := (headerValue (some headers) "Subject").getD "(no subject)"
  let fromHeader := headerValue (some headers) "From"
  let date := headerValue (some headers) "Date"
  let messageIdHeader := headerValue (some headers) "Message-ID"
  let parsed := parseEmailAddress fromHeader
  { id := id
    threadId := entry.threadId.orElse (fun _ => detail.threadId)
    subject := subject
    «from» := fromHeader
    fromName := parsed.name
    fromAddress := parsed.address
    snippet := detail.snippet.getD ""
    internalDate := detail.internalDate
    date := date
    messageIdHeader := messageIdHeader }

/-- `Promise.all` over already-started computations: resolves with the
list of results in input order, or rejects as soon as any input
rejects. -/
def promiseAll {ε α : Type} : List (Except ε α) → Except ε (List α)
  | [] => Except.ok []
  | x :: xs =>
    match x with
    | Except.error e => Except.error e
    | Except.ok a =>
      match promiseAll xs with
      | Except.error e => Except.error e
      | Except.ok rs => Except.ok (a :: rs)

/-- The `Promise.all` callback of the list route for one entry: a falsy
id resolves to `null` without any further remote call; otherwise the
detail lookup runs and the enriched record is produced (the lookup may
reject, which rejects the whole aggregate). -/
def listStep (getDetail : String → Except Unit MessageDetail)
    (e : ListEntry) : Except Unit (Option GmailMessage) :=
  match e.id with
  | none => Except.ok none
  | some i =>
    if i = "" then Except.ok none
    else
      match getDetail i with
      | Except.error u => Except.error u
      | Except.ok d => Except.ok (some (enrich e i d))

/-- Responses of the list endpoint. -/
inductive ListResponse where
  | unauthorized
  | ok (messages : List GmailMessage)
  | serverError (msg : String)
deriving DecidableEq

/-- The `GET` handler of `src/web/app/api/gmail/list/route.ts`.  The
remote world is passed in as oracles: `listResult` is the outcome of the
initial unread query and `getDetail` the outcome of each per-id detail
lookup.  A missing (or falsy) access token short-circuits to 401 before
anything else; any rejection inside the `try` block is caught and mapped
to the generic 500. -/
def listGET (accessToken : Option String)
    (listResult : Except Unit (List ListEntry))
    (getDetail : String → Except Unit MessageDetail) : ListResponse :=
  if truthy accessToken = false then ListResponse.unauthorized
  else
    match listResult with
    | Except.error _ => ListResponse.serverError "Failed to load messages"
    | Except.ok entries =>
      if entries.isEmpty then ListResponse.ok []
      else
        match promiseAll (entries.map (listStep getDetail)) with
        | Except.error _ => ListResponse.serverError "Failed to load messages"
        | Except.ok detailed =>
          ListResponse.ok (detailed.filterMap (fun x => x))

/-- Body generator of the first quick-reply template (`acknowledge`). -/
def acknowledgeBody (m : GmailMessage) : String :=
  "Hi " ++ (m.fromName.getD "there") ++
    ",\n\nThanks for reaching out about \"" ++ m.subject ++
    "\". I received your message and will circle back with a full response soon.\n\nBest,\n"

/-- Body generator of the second quick-reply template (`schedule`). -/
def scheduleBody (m : GmailMessage) : String :=
  "Hi " ++ (m.fromName.getD "there") ++
    ",\n\nAppreciate the note regarding \"" ++ m.subject ++
    "\". Happy to connect—would you have time for a quick call later this week? Let me know a few windows that work for you.\n\nThanks,\n"

/-- Body generator of the third quick-reply template (`follow-up`). -/
def followUpBody (m : GmailMessage) : String :=
  "Hi " ++ (m.fromName.getD "there") ++
    ",\n\nThanks for reaching out! Could you share a bit more detail about \"" ++
    m.subject ++ "\" so I can help faster?\n\nLooking forward to your reply,\n"

/-- One entry of the quick-reply catalog. -/
structure QuickReplyTemplate where
  id : String
  label : String
  body : GmailMessage → String

/-- The order-significant `QUICK_REPLIES` catalog of `page.tsx`. -/
def QUICK_REPLIES : List QuickReplyTemplate :=
  [⟨"acknowledge", "Acknowledgement", acknowledgeBody⟩,
   ⟨"schedule", "Schedule a call", scheduleBody⟩,
   ⟨"follow-up", "Ask for details", followUpBody⟩]

/-- `defaultReply` from `page.tsx`:
`QUICK_REPLIES[0]?.body(message) ?? ""`. -/
def defaultReply (m : GmailMessage) : String :=
  match QUICK_REPLIES[0]? with
  | some t => t.body m
  | none => ""

/-- JavaScript `replace(/\s+/g, " ")`: every maximal run of whitespace
collapses to a single space. -/
def collapseWsList : List Char → List Char
  | [] => []
  | c :: cs =>
    if isJsSpace c then ' ' :: collapseWsList (cs.dropWhile isJsSpace)
    else c :: collapseWsList cs
termination_by l => l.length
decreasing_by
  · simp only [List.length_cons]
    exact Nat.lt_succ_of_le (List.dropWhile_sublist isJsSpace).length_le
  · simp [Nat.lt_succ_self]

/-- `smartReply` from `page.tsx`: falls back to `defaultReply` when
`fromAddress` is falsy; otherwise collapses and trims the snippet,
chooses a greeting from `fromName`, and embeds the cleaned snippet in a
restating clause only when it is non-empty. -/
def smartReply (m : GmailMessage) : String :=
  if truthy m.fromAddress = false then defaultReply m
  else
    let cleanedSnippet := String.mk (jsTrim (collapseWsList m.snippet.data))
    let greeting :=
      match m.fromName with
      | some n => if n != "" then "Hi " ++ n ++ "," else "Hello,"
      | none => "Hello,"
    greeting ++ "\n\nThanks for getting in touch regarding \"" ++ m.subject ++
      "\". " ++
      (if cleanedSnippet.length != 0 then
        "Here\x27s what I understood from your note: " ++ cleanedSnippet ++ ". "
      else "") ++
      "I\x27ll review the details and follow up with the next steps shortly.\n\nBest regards,\n"

/-- The message-collection update performed by `handleSendReply` in
`page.tsx`: only when the reply endpoint responded ok does
`setMessages((prev) => prev.filter((item) => item.id !== message.id))`
run; on failure the collection is untouched. -/
def handleSendReplyUpdate (responseOk : Bool) (prev : List GmailMessage)
    (m : GmailMessage) : List GmailMessage :=
  if responseOk then prev.filter (fun item => item.id != m.id) else prev

/-- Outgoing-subject normalization from the reply route:
`payload.subject.startsWith("Re:") ? payload.subject : "Re: " + payload.subject`. -/
def normalizeSubject (s : String) : String :=
  if jsStartsWith s "Re:" then s else "Re: " ++ s

/-- UTF-8 bytes of one character, as `Buffer.from(string)` produces. -/
def utf8Encode (c : Char) : List Nat :=
  let n := c.toNat
  if n < 0x80 then [n]
  else if n < 0x800 then [0xc0 + n / 64, 0x80 + n % 64]
  else if n < 0x10000 then
    [0xe0 + n / 4096, 0x80 + n / 64 % 64, 0x80 + n % 64]
  else
    [0xf0 + n / 262144, 0x80 + n / 4096 % 64, 0x80 + n / 64 % 64,
     0x80 + n % 64]

/-- UTF-8 byte sequence of a string. -/
def strBytes (s : String) : List Nat :=
  s.data.foldr (fun c acc => utf8Encode c ++ acc) []

/-- The standard base64 alphabet. -/
def base64Chars : List Char :=
  "ABCDEFGHIJKLMNOPQRSTUVWXYZabcdefghijklmnopqrstuvwxyz0123456789+/".data

/-- Character of the base64 alphabet at a 6-bit index. -/
def b64Char (n : Nat) : Char :=
  base64Chars.getD n 'A'

/-- Standard (padded) base64 encoding of a byte list, as
`Buffer.prototype.toString("base64")` produces. -/
def base64Encode : List Nat → List Char
  | [] => []
  | [b1] => [b64Char (b1 / 4), b64Char (b1 % 4 * 16), '=', '=']
  | [b1, b2] =>
    [b64Char (b1 / 4), b64Char (b1 % 4 * 16 + b2 / 16),
     b64Char (b2 % 16 * 4), '=']
  | b1 :: b2 :: b3 :: rest =>
    b64Char (b1 / 4) :: b64Char (b1 % 4 * 16 + b2 / 16) ::
      b64Char (b2 % 16 * 4 + b3 / 64) :: b64Char (b3 % 64) ::
      base64Encode rest

/-- The post-processing chain of `encodeEmail`:
`.replace(/\+/g, "-").replace(/\//g, "_").replace(/=+$/, "")`. -/
def toBase64Url (s : String) : String :=
  let chars := base64Encode (strBytes s)
  let replaced :=
    chars.map (fun ch => if ch == '+' then '-' else if ch == '/' then '_' else ch)
  String.mk ((replaced.reverse.dropWhile (fun ch => ch == '=')).reverse)

/-- `encodeEmail` from the reply route: assembles the plaintext envelope
(To, Subject, Content-Type, Content-Transfer-Encoding, optional
In-Reply-To and References when `inReplyTo` is truthy, blank line, body),
joins the lines with newlines and encodes them base64url without
padding. -/
def encodeEmail («to» subject body : String) (inReplyTo : Option String) :
    String :=
  let baseHeaders :=
    ["To: " ++ «to»,
     "Subject: " ++ subject,
     "Content-Type: text/plain; charset=\"UTF-8\"",
     "Content-Transfer-Encoding: 7bit"]
  let headers :=
    match inReplyTo with
    | some r =>
      if r != "" then
        baseHeaders ++ ["In-Reply-To: " ++ r, "References: " ++ r]
      else baseHeaders
    | none => baseHeaders
  toBase64Url (String.intercalate "\n" (headers ++ ["", body]))

/-- The JSON payload accepted by the reply route (`ReplyPayload`); every
field is optional at the transport level. -/
structure ReplyPayload where
  messageId : Option String
  threadId : Option String
  «to» : Option String
  subject : Option String
  body : Option String
  messageHeaderId : Option String
deriving DecidableEq

/-- Responses of the reply endpoint. -/
inductive ReplyResponse where
  | unauthorized
  | badRequest (msg : String)
  | okTrue
  | serverError (msg : String)
deriving DecidableEq

/-- Which remote Gmail mutations the reply handler performed, and the
raw encoded message handed to `messages.send` when it was invoked. -/
structure SendEffects where
  sendCalled : Bool
  modifyCalled : Bool
  sentRaw : Option String
deriving DecidableEq

/-- The `POST` handler of the reply route.  Control flow of the source:
401 when the session carries no (truthy) access token; 400 when any of
`messageId`, `threadId`, `to`, `subject`, `body` is falsy — in both
cases before any remote call; otherwise the envelope is encoded and
`messages.send` is invoked, then `messages.modify` (remove UNREAD, add
STARRED) on the original message, both inside one `try` whose `catch`
returns the generic 500; `{ ok: true }` only when both calls succeed.
The oracles `sendOk` and `modifyOk` say whether each remote call
succeeds. -/
def replyPOST (accessToken : Option String) (payload : ReplyPayload)
    (sendOk modifyOk : Bool) : ReplyResponse × SendEffects :=
  if truthy accessToken = false then
    (ReplyResponse.unauthorized, ⟨false, false, none⟩)
  else if !(truthy payload.messageId && truthy payload.threadId &&
      truthy payload.«to» && truthy payload.subject && truthy payload.body) then
    (ReplyResponse.badRequest "Missing required fields", ⟨false, false, none⟩)
  else
    let raw := encodeEmail (payload.«to».getD "")
      (normalizeSubject (payload.subject.getD ""))
      (payload.body.getD "") payload.messageHeaderId
    if sendOk = false then
      (ReplyResponse.serverError "Failed to send reply", ⟨true, false, some raw⟩)
    else if modifyOk = false then
      (ReplyResponse.serverError "Failed to send reply", ⟨true, true, some raw⟩)
    else
      (ReplyResponse.okTrue, ⟨true, true, some raw⟩)

/-- Sample enriched message with a parsed sender address. -/
def msgOne : GmailMessage :=
  ⟨"m1", some "t1", "Subject one", some "Ann <ann@example.com>", some "Ann",
   some "ann@example.com", "snippet one", none, some "Mon", some "<id1@mail>"⟩

/-- Second sample enriched message, with a distinct id. -/
def msgTwo : GmailMessage :=
  ⟨"m2", some "t2", "Subject two", some "Bob <bob@example.com>", some "Bob",
   some "bob@example.com", "snippet two", none, none, none⟩

/-- Sample message whose sender address could not be parsed
(`fromAddress` is null). -/
def msgNoAddress : GmailMessage :=
  ⟨"m3", none, "Subject three", none, none, none, "  needs   review  ",
   none, none, none⟩

/-- Reply payload whose body is whitespace only. -/
def whitespacePayload : ReplyPayload :=
  ⟨some "id1", some "t1", some "ann@example.com", some "Status", some " ", none⟩

/-- Reply payload with every required field present and truthy. -/
def validPayload : ReplyPayload :=
  ⟨some "id2", some "t2", some "bob@example.com", some "Hello", some "Thanks.",
   some "<mid2@mail>"⟩

/-- Sample unread-query result: two entries with ids around one without. -/
def sampleEntries : List ListEntry :=
  [⟨some "a", some "t1"⟩, ⟨none, some "t2"⟩, ⟨some "b", none⟩]

/-- Detail-lookup oracle that always succeeds with the same payload. -/
def sampleDetailFun : String → MessageDetail :=
  fun _ => ⟨some [⟨some "From", some "Ann <ann@example.com>"⟩],
            some "hello", none, some "T"⟩

/-- Detail-lookup oracle that always rejects. -/
def failDetailFun : String → Except Unit MessageDetail :=
  fun _ => Except.error ()

/-- Unread-query result containing a single entry with an id. -/
def errEntries : List ListEntry :=
  [⟨some "x", none⟩]

/-- The angle-bracket matcher fails on any input that contains no
left angle bracket. -/
theorem tryAngle_none_of_no_langle (rest : List Char) (hnb : '<' ∉ rest) :
    tryAngle rest = none := by
  unfold tryAngle
  cases hd : rest.dropWhile isJsSpace with
  | nil => rfl
  | cons c cs =>
    have hc : c ∈ rest :=
      (List.dropWhile_sublist isJsSpace).mem (by rw [hd]; exact List.mem_cons_self c cs)
    have hne : ¬ c = '<' := fun hEq => hnb (hEq ▸ hc)
    simp [hne]

/-- On an input without left angle brackets and without line
terminators, the regular expression matches with group 2 undefined:
group 1 swallows the whole string. -/
theorem scanAux_plain (rest : List Char) (hnb : '<' ∉ rest)
    (hnl : ∀ c ∈ rest, isLineTerm c = false) :
    ∀ pre, scanAux rest pre = RegexOut.plain := by
  induction rest with
  | nil => intro pre; rfl
  | cons c cs ih =>
    intro pre
    have h1 : tryAngle (c :: cs) = none := tryAngle_none_of_no_langle _ hnb
    rw [scanAux, h1]
    have hc : isLineTerm c = false := hnl c (List.mem_cons_self c cs)
    simp only [hc, Bool.false_eq_true, if_false]
    exact ih (fun hm => hnb (List.mem_cons_of_mem c hm))
      (fun x hx => hnl x (List.mem_cons_of_mem c hx)) (c :: pre)

/-- Trimming only removes characters. -/
theorem mem_of_mem_jsTrim {c : Char} {l : List Char} (h : c ∈ jsTrim l) :
    c ∈ l := by
  unfold jsTrim at h
  rw [List.mem_reverse] at h
  have h2 := (List.dropWhile_sublist isJsSpace).mem h
  rw [List.mem_reverse] at h2
  exact (List.dropWhile_sublist isJsSpace).mem h2

/-- With an always-succeeding detail oracle, the enrichment fan-out
resolves to the per-entry records in input order. -/
theorem promiseAll_listStep_ok (d : String → MessageDetail)
    (entries : List ListEntry) :
    promiseAll (entries.map (listStep (fun i => Except.ok (d i)))) =
      Except.ok (entries.map (fun e =>
        match e.id with
        | none => none
        | some i => if i = "" then none else some (enrich e i (d i)))) := by
  induction entries with
  | nil => rfl
  | cons e rest ih =>
    cases hid : e.id with
    | none => simp [List.map_cons, listStep, hid, promiseAll, ih]
    | some i =>
      by_cases hi : i = ""
      · simp [List.map_cons, listStep, hid, hi, promiseAll, ih]
      · simp [List.map_cons, listStep, hid, hi, promiseAll, ih]

/-- If any entry with a truthy id has a rejecting detail lookup, the
enrichment fan-out rejects as a whole. -/
theorem promiseAll_listStep_error
    (getDetail : String → Except Unit MessageDetail)
    (entries : List ListEntry)
    (hex : ∃ e ∈ entries, ∃ i, e.id = some i ∧ i ≠ "" ∧
      getDetail i = Except.error ()) :
    promiseAll (entries.map (listStep getDetail)) = Except.error () := by
  induction entries with
  | nil => simp at hex
  | cons a rest ih =>
    rcases hex with ⟨e, he, i, hid, hi, herr⟩
    rcases List.mem_cons.mp he with rfl | hmem
    · simp [List.map_cons, listStep, hid, hi, herr, promiseAll]
    · have hres := ih ⟨e, hmem, i, hid, hi, herr⟩
      cases hstep : listStep getDetail a with
      | error u => simp [List.map_cons, promiseAll, hstep]
      | ok v => simp [List.map_cons, promiseAll, hstep, hres]

/-- When ids are pairwise distinct and the sent message is present,
filtering out its id is exactly erasing that one element. -/
theorem filter_ne_id_eq_erase (prev : List GmailMessage) (m : GmailMessage)
    (hnodup : (prev.map GmailMessage.id).Nodup) (hmem : m ∈ prev) :
    prev.filter (fun item => item.id != m.id) = prev.erase m := by
  induction prev with
  | nil => cases hmem
  | cons a rest ih =>
    rw [List.map_cons, List.nodup_cons] at hnodup
    obtain ⟨hna, hnr⟩ := hnodup
    rcases List.mem_cons.mp hmem with rfl | hmr
    · rw [List.filter_cons, List.erase_cons_head]
      simp only [bne_self_eq_false, Bool.false_eq_true, if_false]
      apply List.filter_eq_self.mpr
      intro x hx
      have hxid : x.id ∈ rest.map GmailMessage.id := List.mem_map_of_mem _ hx
      simp only [bne_iff_ne, ne_eq]
      exact fun hEq => hna (hEq ▸ hxid)
    · have hmid : m.id ∈ rest.map GmailMessage.id := List.mem_map_of_mem _ hmr
      have hne : a.id ≠ m.id := fun hEq => hna (hEq ▸ hmid)
      have hanem : a ≠ m := fun hEq => hne (congrArg GmailMessage.id hEq)
      rw [List.filter_cons]
      have hbne : (a.id != m.id) = true := by simp [bne_iff_ne, hne]
      rw [if_pos hbne]
      rw [List.erase_cons_tail (by simp [hanem])]
      rw [ih hnr hmr]

/-- Claim C1, counterexample: a send request whose body is a single
space — empty after trimming — is NOT rejected: the falsy-field check
accepts it, the remote send call is performed and the operation reports
success. -/
theorem replyPOST_whitespace_body_sent :
    jsTrimStr " " = "" ∧
    (replyPOST (some "tok") whitespacePayload true true).1 =
      ReplyResponse.okTrue ∧
    (replyPOST (some "tok") whitespacePayload true true).2.sendCalled = true :=
  ⟨by decide, by decide, by decide⟩

/-- Claim C1 (amended): a send request whose draft body is absent or
exactly the empty string is rejected as a 400 validation failure before
any remote call — no send and no label mutation happens; a merely
whitespace body, however, passes validation. -/
theorem replyPOST_empty_body_rejected (tok : String) (htok : tok ≠ "")
    (p : ReplyPayload) (sendOk modifyOk : Bool)
    (h : p.body = none ∨ p.body = some "") :
    replyPOST (some tok) p sendOk modifyOk =
      (ReplyResponse.badRequest "Missing required fields",
       ⟨false, false, none⟩) := by
  rcases h with h | h <;> simp [replyPOST, truthy, htok, h]

/-- Witness for claim C1: the amended theorem at a concrete payload with
an empty body. -/
theorem replyPOST_empty_body_rejected_witness :
    replyPOST (some "tok")
        ⟨some "id1", some "t1", some "ann@example.com", some "Status",
         some "", none⟩ true true =
      (ReplyResponse.badRequest "Missing required fields",
       ⟨false, false, none⟩) :=
  replyPOST_empty_body_rejected "tok" (by decide)
    ⟨some "id1", some "t1", some "ann@example.com", some "Status",
     some "", none⟩ true true (Or.inr rfl)

/-- Claim C2, counterexample: when the reply submission succeeds but the
follow-up label mutation fails, the operation does NOT report success —
it returns the generic 500 failure, even though the send call was
performed. -/
theorem replyPOST_modify_failure_reports_error :
    (replyPOST (some "tok") validPayload true false).1 =
      ReplyResponse.serverError "Failed to send reply" ∧
    (replyPOST (some "tok") validPayload true false).1 ≠
      ReplyResponse.okTrue ∧
    (replyPOST (some "tok") validPayload true false).2.sendCalled = true :=
  ⟨by decide, by decide, by decide⟩

/-- Claim C2 (amended): when the reply submission (step 3) succeeds and
the subsequent label mutation (step 4) fails, the failure is not
specially detected or rolled back — the same generic catch as any remote
failure fires and the operation reports the generic 500 failure rather
than success, leaving the message sent but unmarked while the caller is
told the send failed. -/
theorem replyPOST_modify_failure_generic_500 (tok : String) (htok : tok ≠ "")
    (p : ReplyPayload)
    (hm : truthy p.messageId = true) (ht : truthy p.threadId = true)
    (hto : truthy p.«to» = true) (hs : truthy p.subject = true)
    (hb : truthy p.body = true) :
    (replyPOST (some tok) p true false).1 =
      ReplyResponse.serverError "Failed to send reply" ∧
    (replyPOST (some tok) p true false).2.sendCalled = true ∧
    (replyPOST (some tok) p true false).2.modifyCalled = true ∧
    (replyPOST (some tok) p true false).1 ≠ ReplyResponse.okTrue := by
  have htr : truthy (some tok) = true := by simp [truthy, htok]
  simp [replyPOST, htr, hm, ht, hto, hs, hb]

/-- Witness for claim C2: the amended theorem at a concrete valid
payload. -/
theorem replyPOST_modify_failure_generic_500_witness :
    (replyPOST (some "tok") validPayload true false).1 =
      ReplyResponse.serverError "Failed to send reply" ∧
    (replyPOST (some "tok") validPayload true false).2.sendCalled = true ∧
    (replyPOST (some "tok") validPayload true false).2.modifyCalled = true ∧
    (replyPOST (some "tok") validPayload true false).1 ≠
      ReplyResponse.okTrue :=
  replyPOST_modify_failure_generic_500 "tok" (by decide) validPayload
    (by decide) (by decide) (by decide) (by decide) (by decide)

/-- Claim C3, counterexample: the parser removes EVERY double-quote
character from the display name, not exactly the enclosing ones — a
display name with interior quotes loses them too. -/
theorem parseEmailAddress_strips_interior_quotes :
    parseEmailAddress (some "He said \"hi\" <a@b.com>") =
      ⟨some "He said hi", some "a@b.com"⟩ ∧
    (parseEmailAddress (some "He said \"hi\" <a@b.com>")).name ≠
      some "He said \"hi\"" :=
  ⟨by decide, by decide⟩

/-- Claim C3 (amended): sender-header parsing maps
"Display Name (angle-bracket address)" to the name and address parts;
every double-quote character of the display name (interior ones
included) is removed and surrounding whitespace trimmed, so the quoted
example still yields the unquoted name; and when no angle-bracket
address (and no line terminator) is present, the entire header value,
trimmed, becomes the address and the name is null — in particular no
parsed name ever contains a double-quote character. -/
theorem parseEmailAddress_parsing_spec (h : String) (hne : h ≠ "")
    (hnb : '<' ∉ h.data) (hnl : ∀ c ∈ h.data, isLineTerm c = false) :
    parseEmailAddress (some h) = ⟨none, some (jsTrimStr h)⟩ ∧
    parseEmailAddress (some "Alex Doe <alex@example.com>") =
      ⟨some "Alex Doe", some "alex@example.com"⟩ ∧
    parseEmailAddress (some "\"Quoted Name\" <a@b.com>") =
      ⟨some "Quoted Name", some "a@b.com"⟩ ∧
    (∀ hv n, (parseEmailAddress hv).name = some n →
      ∀ c ∈ n.data, c ≠ '"') := by
  refine ⟨?_, by decide, by decide, ?_⟩
  · have hs : scan [] h.data = RegexOut.plain := scanAux_plain h.data hnb hnl []
    simp [parseEmailAddress, hne, scan] at hs ⊢
    rw [hs]
  · intro hv n hname c hc
    cases hv with
    | none => simp [parseEmailAddress] at hname
    | some s =>
      by_cases hsn : s = ""
      · simp [parseEmailAddress, hsn] at hname
      · cases hscan : scan [] s.data with
        | bracket g1 inner =>
          simp [parseEmailAddress, hsn, hscan] at hname
          rcases hname with ⟨hnen, hn⟩
          subst hn
          have hmem : c ∈ jsTrim (g1.filter (fun ch => ch != '"')) := hc
          have hmem2 := mem_of_mem_jsTrim hmem
          have := (List.mem_filter.mp hmem2).2
          simpa using this
        | plain => simp [parseEmailAddress, hsn, hscan] at hname
        | noMatch => simp [parseEmailAddress, hsn, hscan] at hname

/-- Witness for claim C3: the amended theorem at the bare-address
example of the specification. -/
theorem parseEmailAddress_parsing_spec_witness :
    parseEmailAddress (some "alex@example.com") =
      ⟨none, some (jsTrimStr "alex@example.com")⟩ ∧
    parseEmailAddress (some "Alex Doe <alex@example.com>") =
      ⟨some "Alex Doe", some "alex@example.com"⟩ ∧
    parseEmailAddress (some "\"Quoted Name\" <a@b.com>") =
      ⟨some "Quoted Name", some "a@b.com"⟩ ∧
    (∀ hv n, (parseEmailAddress hv).name = some n →
      ∀ c ∈ n.data, c ≠ '"') :=
  parseEmailAddress_parsing_spec "alex@example.com" (by decide) (by decide)
    (by decide)

/-- Claim C4: with an authenticated caller and an initial unread query
returning `entries` (Gmail ids are opaque non-empty strings, hence the
hypothesis that no id is the empty string) and every detail lookup
succeeding, the list endpoint returns exactly the enriched records of
the entries that carry an id, in the same relative order; entries
without an id are silently omitted and no error is reported. -/
theorem listGET_keeps_id_entries_in_order (tok : String) (htok : tok ≠ "")
    (entries : List ListEntry) (d : String → MessageDetail)
    (hids : ∀ e ∈ entries, e.id ≠ some "") :
    listGET (some tok) (Except.ok entries) (fun i => Except.ok (d i)) =
      ListResponse.ok (entries.filterMap
        (fun e => e.id.map (fun i => enrich e i (d i)))) := by
  have htr : truthy (some tok) = true := by simp [truthy, htok]
  by_cases he : entries.isEmpty
  · have hnil : entries = [] := List.isEmpty_iff.mp he
    subst hnil
    simp [listGET, htr]
  · simp [listGET, htr, he, promiseAll_listStep_ok]
    apply List.filterMap_congr
    intro e hme
    cases hid : e.id with
    | none => simp [Function.comp, hid]
    | some i =>
      have : i ≠ "" := by
        intro hieq
        exact hids e hme (hieq ▸ hid)
      simp [Function.comp, hid, this]

/-- Witness for claim C4: the theorem at a concrete three-entry list
whose middle entry has no id. -/
theorem listGET_keeps_id_entries_in_order_witness :
    listGET (some "tok") (Except.ok sampleEntries)
        (fun i => Except.ok (sampleDetailFun i)) =
      ListResponse.ok (sampleEntries.filterMap
        (fun e => e.id.map (fun i => enrich e i (sampleDetailFun i)))) :=
  listGET_keeps_id_entries_in_order "tok" (by decide) sampleEntries
    sampleDetailFun (by decide)

/-- Claim C5: for a message whose `fromAddress` is null, `smartReply`
produces exactly the output of `defaultReply`, which is the first
quick-reply template (`acknowledge`). -/
theorem smartReply_null_address_is_default (m : GmailMessage)
    (h : m.fromAddress = none) :
    smartReply m = defaultReply m ∧ defaultReply m = acknowledgeBody m := by
  constructor
  · simp [smartReply, truthy, h]
  · rfl

/-- Witness for claim C5: the theorem at a concrete message without a
parsed sender address. -/
theorem smartReply_null_address_is_default_witness :
    smartReply msgNoAddress = defaultReply msgNoAddress ∧
    defaultReply msgNoAddress = acknowledgeBody msgNoAddress :=
  smartReply_null_address_is_default msgNoAddress rfl

/-- Claim C6: normalizing an outgoing subject is idempotent — a subject
that was already normalized is returned unchanged, so the "Re: " marker
is never stacked twice. -/
theorem normalizeSubject_idempotent (s : String) :
    normalizeSubject (normalizeSubject s) = normalizeSubject s := by
  by_cases h : jsStartsWith s "Re:" = true
  · simp [normalizeSubject, h]
  · have h2 : jsStartsWith ("Re: " ++ s) "Re:" = true := rfl
    simp [normalizeSubject, h, h2]

/-- Claim C7: for an authenticated caller, if the initial unread query
rejects, or it resolves to entries among which some id-carrying entry
has a rejecting detail lookup, the list endpoint returns the one generic
500 failure and no messages at all — never the subset of enrichments
that already succeeded. -/
theorem listGET_total_failure_generic_500 (tok : String) (htok : tok ≠ "")
    (listResult : Except Unit (List ListEntry))
    (getDetail : String → Except Unit MessageDetail) :
    (listResult = Except.error () →
      listGET (some tok) listResult getDetail =
        ListResponse.serverError "Failed to load messages") ∧
    (∀ entries, listResult = Except.ok entries →
      (∃ e ∈ entries, ∃ i, e.id = some i ∧ i ≠ "" ∧
        getDetail i = Except.error ()) →
      listGET (some tok) listResult getDetail =
        ListResponse.serverError "Failed to load messages") := by
  have htr : truthy (some tok) = true := by simp [truthy, htok]
  constructor
  · intro herr
    subst herr
    simp [listGET, htr]
  · intro entries hok hex
    subst hok
    have hne : ¬ entries.isEmpty := by
      rcases hex with ⟨e, he, _⟩
      intro hemp
      rw [List.isEmpty_iff.mp hemp] at he
      simp at he
    simp [listGET, htr, hne, promiseAll_listStep_error getDetail entries hex]

/-- Witness for claim C7: the theorem applied once with a rejecting
initial query and once with a rejecting detail lookup. -/
theorem listGET_total_failure_generic_500_witness :
    listGET (some "tok") (Except.error ()) failDetailFun =
      ListResponse.serverError "Failed to load messages" ∧
    listGET (some "tok") (Except.ok errEntries) failDetailFun =
      ListResponse.serverError "Failed to load messages" :=
  ⟨(listGET_total_failure_generic_500 "tok" (by decide) (Except.error ())
      failDetailFun).1 rfl,
   (listGET_total_failure_generic_500 "tok" (by decide)
      (Except.ok errEntries) failDetailFun).2 errEntries rfl
      ⟨⟨some "x", none⟩, by decide, "x", rfl, by decide, rfl⟩⟩

/-- Claim C8: for an authenticated caller, a send request in which any
of the required fields is absent is rejected with the 400 validation
response before any remote call: neither the send nor the label
mutation is performed. -/
theorem replyPOST_missing_field_rejected (tok : String) (htok : tok ≠ "")
    (p : ReplyPayload) (sendOk modifyOk : Bool)
    (h : p.messageId = none ∨ p.threadId = none ∨ p.«to» = none ∨
      p.subject = none ∨ p.body = none) :
    replyPOST (some tok) p sendOk modifyOk =
      (ReplyResponse.badRequest "Missing required fields",
       ⟨false, false, none⟩) := by
  rcases h with h | h | h | h | h <;> simp [replyPOST, truthy, htok, h]

/-- Witness for claim C8: the theorem at a concrete payload lacking a
subject. -/
theorem replyPOST_missing_field_rejected_witness :
    replyPOST (some "tok")
        ⟨some "id3", some "t3", some "cara@example.com", none,
         some "A body.", none⟩ true true =
      (ReplyResponse.badRequest "Missing required fields",
       ⟨false, false, none⟩) :=
  replyPOST_missing_field_rejected "tok" (by decide)
    ⟨some "id3", some "t3", some "cara@example.com", none,
     some "A body.", none⟩ true true
    (Or.inr (Or.inr (Or.inr (Or.inl rfl))))

/-- Claim C9: when a send succeeds and message ids are pairwise
distinct, exactly the sent message leaves the visible collection: the
update equals erasing that one element, the result is a sublist of the
previous collection (every other message present, unmodified, in its
original relative order) and the sent message itself is gone. -/
theorem send_success_removes_exactly_message (prev : List GmailMessage)
    (m : GmailMessage) (hnodup : (prev.map GmailMessage.id).Nodup)
    (hmem : m ∈ prev) :
    handleSendReplyUpdate true prev m = prev.erase m ∧
    (handleSendReplyUpdate true prev m).Sublist prev ∧
    (∀ x ∈ prev, x ≠ m → x ∈ handleSendReplyUpdate true prev m) ∧
    m ∉ handleSendReplyUpdate true prev m := by
  have h1 : handleSendReplyUpdate true prev m = prev.erase m := by
    simp only [handleSendReplyUpdate, if_pos rfl]
    exact filter_ne_id_eq_erase prev m hnodup hmem
  refine ⟨h1, ?_, ?_, ?_⟩
  · rw [h1]; exact List.erase_sublist m prev
  · intro x hx hxm
    rw [h1]
    exact (List.mem_erase_of_ne hxm).mpr hx
  · simp [handleSendReplyUpdate, List.mem_filter]

/-- Witness for claim C9: the theorem at the two-message collection of
the end-to-end example — replying to the first message leaves exactly
the second. -/
theorem send_success_removes_exactly_message_witness :
    handleSendReplyUpdate true [msgOne, msgTwo] msgOne =
      [msgOne, msgTwo].erase msgOne ∧
    (handleSendReplyUpdate true [msgOne, msgTwo] msgOne).Sublist
      [msgOne, msgTwo] ∧
    (∀ x ∈ [msgOne, msgTwo], x ≠ msgOne →
      x ∈ handleSendReplyUpdate true [msgOne, msgTwo] msgOne) ∧
    msgOne ∉ handleSendReplyUpdate true [msgOne, msgTwo] msgOne :=
  send_success_removes_exactly_message [msgOne, msgTwo] msgOne
    (by decide) (by decide)

/-- Claim C10: in both endpoints the authentication check precedes all
other processing — without a token the outcome is 401 whatever the
other inputs, with no remote effects in the send case, and conversely a
400 or 500 outcome can only arise for a caller with a truthy token. -/
theorem auth_check_precedes_processing :
    (∀ listResult getDetail,
      listGET none listResult getDetail = ListResponse.unauthorized) ∧
    (∀ p sendOk modifyOk, replyPOST none p sendOk modifyOk =
      (ReplyResponse.unauthorized, ⟨false, false, none⟩)) ∧
    (∀ tok listResult getDetail msg,
      listGET tok listResult getDetail = ListResponse.serverError msg →
        truthy tok = true) ∧
    (∀ tok p sendOk modifyOk msg,
      (replyPOST tok p sendOk modifyOk).1 = ReplyResponse.badRequest msg →
        truthy tok = true) ∧
    (∀ tok p sendOk modifyOk msg,
      (replyPOST tok p sendOk modifyOk).1 = ReplyResponse.serverError msg →
        truthy tok = true) := by
  refine ⟨?_, ?_, ?_, ?_, ?_⟩
  · intro listResult getDetail
    simp [listGET, truthy]
  · intro p sendOk modifyOk
    simp [replyPOST, truthy]
  · intro tok listResult getDetail msg h
    by_cases htr : truthy tok = true
    · exact htr
    · have hf : truthy tok = false := eq_false_of_ne_true htr
      simp [listGET, hf] at h
  · intro tok p sendOk modifyOk msg h
    by_cases htr : truthy tok = true
    · exact htr
    · have hf : truthy tok = false := eq_false_of_ne_true htr
      simp [replyPOST, hf] at h
  · intro tok p sendOk modifyOk msg h
    by_cases htr : truthy tok = true
    · exact htr
    · have hf : truthy tok = false := eq_false_of_ne_true htr
      simp [replyPOST, hf] at h
